import Mathlib

/-!
Verification of the tkit configuration-synchronization engine.

The Rust source (src/lib.rs, src/commands.rs) is shallowly embedded:

* `ToolConfig`, `SyncConfig`, `Config` mirror the structs of src/lib.rs;
  the `HashMap<String, ToolConfig>` is modelled as an association list
  (insertion order is irrelevant to every property proved here).
* serde_yaml serialization is modelled by a `Yaml` value tree together
  with per-struct `toYaml`/`fromYaml` functions that follow the serde
  derives of src/lib.rs field by field (`#[serde(default)]` on
  `run_commands`, `installed` and `sync`; `Option` fields absent-or-null
  map to `none`).  The textual YAML layer and the base64/UTF-8 transport
  encoding are bijective encodings handled by libraries and are
  abstracted away: a "document" is a `Yaml` value.
* Each effectful command of src/commands.rs becomes a pure function from
  the loaded `Config` plus an environment record (the responses of the
  filesystem, the prompt and the GitHub HTTP endpoints, exactly the
  effects that function performs) to a result record that carries the
  returned value and every write the function performed.
-/

namespace Tkit

/-- Association-list lookup with string keys, used both for the modelled
`HashMap` of tools and for YAML mappings. -/
def alookup {α : Type} : List (String × α) → String → Option α
  | [], _ => none
  | (k, v) :: rest, key => if k = key then some v else alookup rest key

/-- Struct `ToolConfig` from src/lib.rs: name, optional description, four command
lists and an installed flag. -/
structure ToolConfig where
  name : String
  description : Option String
  install_commands : List String
  remove_commands : List String
  update_commands : List String
  run_commands : List String
  installed : Bool
deriving DecidableEq, Repr

/-- Struct `SyncConfig` from src/lib.rs: optional repo, optional token (the
credential), optional last-sync timestamp, auto-sync flag. -/
structure SyncConfig where
  repo : Option String
  token : Option String
  last_sync : Option String
  auto_sync : Bool
deriving DecidableEq, Repr

/-- Function `SyncConfig::default()`: every option `None`, auto_sync false. -/
def SyncConfig.default : SyncConfig :=
  { repo := none, token := none, last_sync := none, auto_sync := false }

/-- Struct `Config` from src/lib.rs: the tool mapping (modelled as an association
list) plus the embedded sync settings. -/
structure Config where
  tools : List (String × ToolConfig)
  sync : SyncConfig
deriving DecidableEq, Repr

/-- Function `Config::new()` from src/lib.rs. -/
def Config.new : Config := { tools := [], sync := SyncConfig.default }

/-- Function `Config::should_auto_sync` from src/lib.rs:
`self.sync.auto_sync && self.sync.repo.is_some() && self.sync.token.is_some()`. -/
def Config.should_auto_sync (c : Config) : Bool :=
  c.sync.auto_sync && c.sync.repo.isSome && c.sync.token.isSome

/-- Function `Config::add_tool` from src/lib.rs: fails if the key exists, otherwise
inserts. -/
def Config.add_tool (c : Config) (name : String) (t : ToolConfig) :
    Except String Config :=
  if (alookup c.tools name).isSome then
    .error ("Tool already exists: " ++ name)
  else
    .ok { c with tools := c.tools ++ [(name, t)] }

/-! Section: YAML document model (the serde_yaml layer of src/lib.rs) -/

/-- A YAML value tree: scalars, sequences and string-keyed mappings — the
image of serde_yaml serialization for the tkit structs. -/
inductive Yaml where
  | nullV : Yaml
  | boolV : Bool → Yaml
  | strV : String → Yaml
  | seqV : List Yaml → Yaml
  | mapV : List (String × Yaml) → Yaml
deriving Repr

mutual

/-- Structural equality test on `Yaml` values. -/
def Yaml.beq : Yaml → Yaml → Bool
  | .nullV, .nullV => true
  | .boolV a, .boolV b => a == b
  | .strV a, .strV b => a == b
  | .seqV a, .seqV b => Yaml.beqList a b
  | .mapV a, .mapV b => Yaml.beqMap a b
  | _, _ => false

/-- Equality test on lists of `Yaml` values. -/
def Yaml.beqList : List Yaml → List Yaml → Bool
  | [], [] => true
  | x :: xs, y :: ys => Yaml.beq x y && Yaml.beqList xs ys
  | _, _ => false

/-- Equality test on YAML mapping entry lists. -/
def Yaml.beqMap : List (String × Yaml) → List (String × Yaml) → Bool
  | [], [] => true
  | (k, x) :: xs, (l, y) :: ys => k == l && Yaml.beq x y && Yaml.beqMap xs ys
  | _, _ => false

end

/-- Looking up a key of a YAML mapping (serde field access); `none` on
non-mappings and missing keys. -/
def Yaml.getField (y : Yaml) (k : String) : Option Yaml :=
  match y with
  | .mapV entries => alookup entries k
  | _ => none

/-- serde: decode a YAML scalar as a string. -/
def Yaml.asStr : Yaml → Option String
  | .strV s => some s
  | _ => none

/-- serde: decode a list of YAML values as strings, failing if any entry
is not a string. -/
def strListFromYaml : List Yaml → Option (List String)
  | [] => some []
  | y :: rest =>
    match y.asStr, strListFromYaml rest with
    | some s, some l => some (s :: l)
    | _, _ => none

/-- serde: decode a YAML value as a `Vec<String>`. -/
def Yaml.asStrList : Yaml → Option (List String)
  | .seqV l => strListFromYaml l
  | _ => none

/-- serde serialization of an `Option<String>` field: `None` becomes
YAML null. -/
def optStrToYaml : Option String → Yaml
  | none => .nullV
  | some s => .strV s

/-- serde deserialization of an `Option<String>` field: missing or null
is `None`, a string is `Some`, anything else is a parse error. -/
def decodeOptStr : Option Yaml → Option (Option String)
  | none => some none
  | some .nullV => some none
  | some (.strV s) => some (some s)
  | some _ => none

/-- serde deserialization of a required `Vec<String>` field. -/
def decodeStrList : Option Yaml → Option (List String)
  | none => none
  | some y => y.asStrList

/-- serde deserialization of a `#[serde(default)] Vec<String>` field:
a missing field defaults to the empty list. -/
def decodeStrListDefault : Option Yaml → Option (List String)
  | none => some []
  | some y => y.asStrList

/-- serde deserialization of a `#[serde(default)] bool` field: a missing
field defaults to false. -/
def decodeBoolDefault : Option Yaml → Option Bool
  | none => some false
  | some (.boolV b) => some b
  | some _ => none

/-- serde_yaml serialization of `ToolConfig` (field order and presence as
derived in src/lib.rs: every field is emitted). -/
def ToolConfig.toYaml (t : ToolConfig) : Yaml :=
  .mapV [("name", .strV t.name),
         ("description", optStrToYaml t.description),
         ("install_commands", .seqV (t.install_commands.map Yaml.strV)),
         ("remove_commands", .seqV (t.remove_commands.map Yaml.strV)),
         ("update_commands", .seqV (t.update_commands.map Yaml.strV)),
         ("run_commands", .seqV (t.run_commands.map Yaml.strV)),
         ("installed", .boolV t.installed)]

/-- serde_yaml deserialization of `ToolConfig`: `name` and the three
maintenance command lists are required, `description` is optional,
`run_commands` and `installed` carry `#[serde(default)]`. -/
def ToolConfig.fromYaml (y : Yaml) : Option ToolConfig := do
  let name ← (y.getField ("name")).bind Yaml.asStr
  let description ← decodeOptStr (y.getField ("description"))
  let install_commands ← decodeStrList (y.getField ("install_commands"))
  let remove_commands ← decodeStrList (y.getField ("remove_commands"))
  let update_commands ← decodeStrList (y.getField ("update_commands"))
  let run_commands ← decodeStrListDefault (y.getField ("run_commands"))
  let installed ← decodeBoolDefault (y.getField ("installed"))
  some { name, description, install_commands, remove_commands,
         update_commands, run_commands, installed }

/-- serde_yaml serialization of `SyncConfig`. -/
def SyncConfig.toYaml (s : SyncConfig) : Yaml :=
  .mapV [("repo", optStrToYaml s.repo),
         ("token", optStrToYaml s.token),
         ("last_sync", optStrToYaml s.last_sync),
         ("auto_sync", .boolV s.auto_sync)]

/-- serde_yaml deserialization of `SyncConfig`; `auto_sync` carries
`#[serde(default)]`, the `Option` fields tolerate absence. -/
def SyncConfig.fromYaml (y : Yaml) : Option SyncConfig := do
  let repo ← decodeOptStr (y.getField ("repo"))
  let token ← decodeOptStr (y.getField ("token"))
  let last_sync ← decodeOptStr (y.getField ("last_sync"))
  let auto_sync ← decodeBoolDefault (y.getField ("auto_sync"))
  some { repo, token, last_sync, auto_sync }

/-- serde_yaml serialization of the tool mapping. -/
def toolsToYaml (ts : List (String × ToolConfig)) : Yaml :=
  .mapV (ts.map fun p => (p.1, p.2.toYaml))

/-- serde_yaml deserialization of the tool mapping entries. -/
def toolsFromYamlEntries : List (String × Yaml) → Option (List (String × ToolConfig))
  | [] => some []
  | (k, v) :: rest =>
    match ToolConfig.fromYaml v, toolsFromYamlEntries rest with
    | some t, some ts => some ((k, t) :: ts)
    | _, _ => none

/-- serde_yaml deserialization of the tool mapping. -/
def toolsFromYaml : Yaml → Option (List (String × ToolConfig))
  | .mapV entries => toolsFromYamlEntries entries
  | _ => none

/-- serde_yaml serialization of a whole `Config` document. -/
def Config.toYaml (c : Config) : Yaml :=
  .mapV [("tools", toolsToYaml c.tools), ("sync", c.sync.toYaml)]

/-- serde_yaml deserialization of a whole `Config` document: `tools` is
required, `sync` carries `#[serde(default)]`. -/
def Config.fromYaml (y : Yaml) : Option Config := do
  let tools ← (y.getField ("tools")).bind toolsFromYaml
  let sync ←
    match y.getField ("sync") with
    | none => some SyncConfig.default
    | some sy => SyncConfig.fromYaml sy
  some { tools, sync }

/-! Section: local persistence (src/lib.rs `load_from_path` / `save_to_path`)

The local document on disk is modelled as `Option Yaml` (`none`: the file
does not exist). -/

/-- Local-persistence and sync-engine errors, following §7 of the design
and the `anyhow!` sites of src/commands.rs. -/
inductive SyncErr where
  | notConfigured
  | transportError
  | httpError (body : String)
  | jsonError
  | noContent
  | deserializationError
  | ioError
  | descriptionRequired
deriving DecidableEq, Repr

/-- Function `Config::load_from_path`: an absent document yields `Config::new()`;
a present but malformed document is a deserialization error. -/
def Config.load_from_path (disk : Option Yaml) : Except SyncErr Config :=
  match disk with
  | none => .ok Config.new
  | some y =>
    match Config.fromYaml y with
    | some c => .ok c
    | none => .error .deserializationError

/-- Function `Config::save_to_path`: serializes and overwrites the document;
returns the new disk content. -/
def Config.save_to_path (c : Config) (_disk : Option Yaml) : Option Yaml :=
  some c.toYaml

/-! Section: serialization round-trip lemmas -/

theorem strListFromYaml_map (l : List String) :
    strListFromYaml (l.map Yaml.strV) = some l := by
  induction l with
  | nil => rfl
  | cons x xs ih => simp [strListFromYaml, Yaml.asStr, ih]

theorem decodeOptStr_optStrToYaml (o : Option String) :
    decodeOptStr (some (optStrToYaml o)) = some o := by
  cases o <;> rfl

theorem toolConfig_roundtrip (t : ToolConfig) :
    ToolConfig.fromYaml t.toYaml = some t := by
  obtain ⟨n, d, ic, rc, uc, runc, inst⟩ := t
  simp [ToolConfig.fromYaml, ToolConfig.toYaml, Yaml.getField, alookup,
        decodeOptStr_optStrToYaml, decodeStrList, decodeStrListDefault,
        decodeBoolDefault, Yaml.asStrList, strListFromYaml_map,
        Yaml.asStr, Option.bind]

theorem syncConfig_roundtrip (s : SyncConfig) :
    SyncConfig.fromYaml s.toYaml = some s := by
  obtain ⟨r, t, l, a⟩ := s
  simp [SyncConfig.fromYaml, SyncConfig.toYaml, Yaml.getField, alookup,
        decodeOptStr_optStrToYaml, decodeBoolDefault]

theorem tools_roundtrip (ts : List (String × ToolConfig)) :
    toolsFromYaml (toolsToYaml ts) = some ts := by
  simp only [toolsToYaml, toolsFromYaml]
  induction ts with
  | nil => rfl
  | cons p rest ih =>
    simp [toolsFromYamlEntries, toolConfig_roundtrip, ih]

theorem config_roundtrip (c : Config) :
    Config.fromYaml c.toYaml = some c := by
  obtain ⟨ts, sy⟩ := c
  simp [Config.fromYaml, Config.toYaml, Yaml.getField, alookup,
        tools_roundtrip, syncConfig_roundtrip, Option.bind]

/-- C2: For every registry R (including tools with absent optional fields
such as empty run commands or missing description), saving R to a path
and then loading from that path yields a registry equal to R on every
field. -/
theorem save_load_roundtrip (c : Config) (disk : Option Yaml) :
    Config.load_from_path (c.save_to_path disk) = .ok c := by
  simp [Config.load_from_path, Config.save_to_path, config_roundtrip]

/-! Section: remote transport model (src/commands.rs HTTP layer)

The GitHub contents API responses are modelled as values handed to the
sync functions by an environment record. -/

/-- The fields of the GitHub file response that src/commands.rs reads:
the blob's content-version tag (`sha`) and its content (already decoded
from base64/UTF-8/YAML text into a `Yaml` document). -/
structure GHFile where
  sha : String
  content : Option Yaml

/-- Outcome of the GET on the contents URL as src/commands.rs observes
it: the send itself can fail (`sendErr`), the status can be non-success
(`notSuccess`), the success body can fail to parse (`jsonErr`), or a
parsed `GitHubFile` comes back. -/
inductive GetResult where
  | sendErr
  | notSuccess
  | jsonErr
  | ok (file : GHFile)

/-- Outcome of the PUT on the contents URL: the send can fail, otherwise
a status (success flag) and body text come back. -/
inductive PutResult where
  | sendErr
  | res (success : Bool) (body : String)

/-- The `sha` variable computed by `push_config_to_github` from the
existence-check GET (src/commands.rs lines 397–407): a parsed success
response contributes its sha, a send failure or non-success status
contributes `None`.  (`jsonErr` never reaches this computation: the `?`
on `response.json()` aborts first.) -/
def metaSha : GetResult → Option String
  | .ok f => some f.sha
  | _ => none

/-- The sanitized copy pushed to GitHub (src/commands.rs lines 377–379):
the config with the token cleared. -/
def sanitize (c : Config) : Config :=
  { c with sync := { c.sync with token := none } }

/-- The document serialized for transmission by a push: the sanitized
config, serialized (src/commands.rs lines 377–381; the base64 step is a
bijective encoding and is abstracted away). -/
def pushedDocument (c : Config) : Yaml :=
  (sanitize c).toYaml

/-- Effects environment of `push_config_to_github`: the response to the
existence-check GET, the responder for the PUT (a function of the
request's content and expected sha), the current time and whether the
final local save succeeds. -/
structure PushEnv where
  metaResp : GetResult
  putResp : Yaml → Option String → PutResult
  now : String
  saveOk : Bool

/-- Everything a push run returns and writes: the propagated result, the
PUT request it sent (content and expected sha), if any, and the config it
saved locally, if any. -/
structure PushResult where
  result : Except SyncErr Unit
  sentPut : Option (Yaml × Option String)
  saved : Option Config

/-- Function `push_config_to_github` from src/commands.rs (also the body of
`push_config_to_github_silent`, which differs only in the commit message
and printing): require repo and token, sanitize and serialize, GET the
current sha (send failures and non-success statuses both yield no sha),
PUT with that sha, and on success save the local config with `last_sync`
set to now. -/
def push_config_to_github (config : Config) (env : PushEnv) : PushResult :=
  match config.sync.repo with
  | none => ⟨.error .notConfigured, none, none⟩
  | some _ =>
    match config.sync.token with
    | none => ⟨.error .notConfigured, none, none⟩
    | some _ =>
      let doc := pushedDocument config
      match env.metaResp with
      | .jsonErr => ⟨.error .jsonError, none, none⟩
      | m =>
        let sha := metaSha m
        match env.putResp doc sha with
        | .sendErr => ⟨.error .transportError, some (doc, sha), none⟩
        | .res ok body =>
          if ok then
            if env.saveOk then
              ⟨.ok (), some (doc, sha),
               some { config with
                      sync := { config.sync with last_sync := some env.now } }⟩
            else ⟨.error .ioError, some (doc, sha), none⟩
          else ⟨.error (.httpError body), some (doc, sha), none⟩

/-- Effect of a command's local save on the on-disk document: a run that
saved nothing leaves the disk as it was. -/
def applySave (saved : Option Config) (disk : Option Yaml) : Option Yaml :=
  match saved with
  | none => disk
  | some c => c.save_to_path disk

/-- The `sync.token` entry of a serialized document. -/
def yamlSyncToken (y : Yaml) : Option Yaml :=
  (y.getField ("sync")).bind fun s => s.getField ("token")

/-- A sample tool for concrete instantiations. -/
def sampleTool : ToolConfig :=
  { name := "git", description := some ("Version control system"),
    install_commands := ["sudo apt-get install -y git"],
    remove_commands := ["sudo apt-get remove -y git"],
    update_commands := ["sudo apt-get upgrade -y git"],
    run_commands := [], installed := false }

/-- A sample fully configured registry for concrete instantiations. -/
def cfgConfigured : Config :=
  { tools := [("git", sampleTool)],
    sync := { repo := some ("me/tkit-config"), token := some ("tok"),
              last_sync := none, auto_sync := true } }

/-- C4: For every local registry in which the repo or the credential is
unset, the Push operation fails with a not-configured error and the local
document on disk is left unmodified. -/
theorem push_unconfigured_fails (config : Config) (env : PushEnv)
    (h : config.sync.repo = none ∨ config.sync.token = none) :
    (push_config_to_github config env).result = .error .notConfigured
    ∧ (push_config_to_github config env).saved = none
    ∧ ∀ disk : Option Yaml,
        applySave (push_config_to_github config env).saved disk = disk := by
  rcases h with h | h
  · simp [push_config_to_github, h, applySave]
  · cases hr : config.sync.repo <;>
      simp [push_config_to_github, h, hr, applySave]

/-- Witness for C4 at the empty, unconfigured registry. -/
theorem push_unconfigured_fails_witness :
    Config.new.sync.repo = none
    ∧ (push_config_to_github Config.new
        { metaResp := .notSuccess, putResp := fun _ _ => .res true (""),
          now := "2024-01-01T00:00:00Z", saveOk := true }).result
      = .error .notConfigured :=
  ⟨rfl,
   (push_unconfigured_fails Config.new
     { metaResp := .notSuccess, putResp := fun _ _ => .res true (""),
       now := "2024-01-01T00:00:00Z", saveOk := true }
     (Or.inl rfl)).1⟩

/-- C3: For every local registry, the document serialized for
transmission by Push has the credential field cleared; the content pushed
to the remote is identical for any two local registries that differ only
in the credential value; and the locally saved registry after a
successful push still contains the original credential. -/
theorem push_credential_hygiene (c₁ c₂ : Config) (env : PushEnv)
    (body : String) (r k : String)
    (hrepo : c₁.sync.repo = some r) (htok : c₁.sync.token = some k)
    (htools : c₁.tools = c₂.tools) (hr : c₁.sync.repo = c₂.sync.repo)
    (hl : c₁.sync.last_sync = c₂.sync.last_sync)
    (ha : c₁.sync.auto_sync = c₂.sync.auto_sync)
    (hmeta : env.metaResp ≠ .jsonErr)
    (hput : env.putResp (pushedDocument c₁) (metaSha env.metaResp)
              = .res true body)
    (hsave : env.saveOk = true) :
    yamlSyncToken (pushedDocument c₁) = some .nullV
    ∧ pushedDocument c₁ = pushedDocument c₂
    ∧ (push_config_to_github c₁ env).sentPut
        = some (pushedDocument c₁, metaSha env.metaResp)
    ∧ ∃ s, (push_config_to_github c₁ env).saved = some s
        ∧ s.sync.token = c₁.sync.token := by
  have hclear : yamlSyncToken (pushedDocument c₁) = some .nullV := by
    simp [yamlSyncToken, pushedDocument, sanitize, Config.toYaml,
          SyncConfig.toYaml, Yaml.getField, alookup, optStrToYaml]
  have hsame : pushedDocument c₁ = pushedDocument c₂ := by
    obtain ⟨t₁, s₁⟩ := c₁
    obtain ⟨t₂, s₂⟩ := c₂
    obtain ⟨r₁, k₁, l₁, a₁⟩ := s₁
    obtain ⟨r₂, k₂, l₂, a₂⟩ := s₂
    simp_all [pushedDocument, sanitize]
  refine ⟨hclear, hsame, ?_⟩
  cases hm : env.metaResp with
  | jsonErr => exact absurd hm hmeta
  | sendErr =>
    rw [hm] at hput
    simp [push_config_to_github, hrepo, htok, hm, hput, hsave, htok]
  | notSuccess =>
    rw [hm] at hput
    simp [push_config_to_github, hrepo, htok, hm, hput, hsave, htok]
  | ok f =>
    rw [hm] at hput
    simp [push_config_to_github, hrepo, htok, hm, hput, hsave, htok]

/-- Witness for C3: two concrete configured registries that differ only
in the token value, pushed against a remote where the file is absent. -/
theorem push_credential_hygiene_witness :
    yamlSyncToken (pushedDocument cfgConfigured) = some .nullV
    ∧ pushedDocument cfgConfigured
        = pushedDocument
            { cfgConfigured with
              sync := { cfgConfigured.sync with token := some ("other") } }
    ∧ (push_config_to_github cfgConfigured
        { metaResp := .notSuccess, putResp := fun _ _ => .res true (""),
          now := "2024-01-01T00:00:00Z", saveOk := true }).sentPut
        = some (pushedDocument cfgConfigured, metaSha .notSuccess)
    ∧ ∃ s, (push_config_to_github cfgConfigured
        { metaResp := .notSuccess, putResp := fun _ _ => .res true (""),
          now := "2024-01-01T00:00:00Z", saveOk := true }).saved = some s
        ∧ s.sync.token = cfgConfigured.sync.token :=
  push_credential_hygiene cfgConfigured
    { cfgConfigured with
      sync := { cfgConfigured.sync with token := some ("other") } }
    { metaResp := .notSuccess, putResp := fun _ _ => .res true (""),
      now := "2024-01-01T00:00:00Z", saveOk := true }
    ("") ("me/tkit-config") ("tok") rfl rfl rfl rfl rfl rfl
    (by intro h; cases h) rfl rfl

/-! Section: pull (src/commands.rs `pull_config_from_github`) -/

/-- Effects environment of `pull_config_from_github`: the response to the
content GET, the result of reading the pre-existing local document for
backup (`none`: the read failed or the file is absent), whether the
backup write succeeds, the current time and whether the final save
succeeds. -/
structure PullEnv where
  getResp : GetResult
  localRead : Option Yaml
  backupWriteOk : Bool
  now : String
  saveOk : Bool

/-- Everything a pull run returns and writes: the propagated result, the
backup content written to the sibling path, if any, and the merged config
saved locally, if any. -/
structure PullResult where
  result : Except SyncErr Unit
  backupWritten : Option Yaml
  saved : Option Config

/-- The merge of src/commands.rs lines 535–538: the remote config's tool
mapping wins in full, the sync settings are taken from the local config
with `last_sync` refreshed to now. -/
def mergeAfterPull (config remote_config : Config) (now : String) : Config :=
  { remote_config with sync := { config.sync with last_sync := some now } }

/-- Function `pull_config_from_github` from src/commands.rs: require repo and
token, GET the remote file (any failure aborts), decode its content,
back up the current local document (a failed read is silently skipped by
the `if let Ok(...)`, but a failed backup *write* propagates through
`?`), merge and save. -/
def pull_config_from_github (config : Config) (env : PullEnv) : PullResult :=
  match config.sync.repo with
  | none => ⟨.error .notConfigured, none, none⟩
  | some _ =>
    match config.sync.token with
    | none => ⟨.error .notConfigured, none, none⟩
    | some _ =>
      match env.getResp with
      | .sendErr => ⟨.error .transportError, none, none⟩
      | .notSuccess =>
        ⟨.error (.httpError ("Failed to fetch config from GitHub")), none, none⟩
      | .jsonErr => ⟨.error .jsonError, none, none⟩
      | .ok file =>
        match file.content with
        | none => ⟨.error .noContent, none, none⟩
        | some doc =>
          match Config.fromYaml doc with
          | none => ⟨.error .deserializationError, none, none⟩
          | some remote_config =>
            let finish := fun (backup : Option Yaml) =>
              let merged := mergeAfterPull config remote_config env.now
              if env.saveOk then (⟨.ok (), backup, some merged⟩ : PullResult)
              else ⟨.error .ioError, backup, none⟩
            match env.localRead with
            | some cur =>
              if env.backupWriteOk then finish (some cur)
              else ⟨.error .ioError, none, none⟩
            | none => finish none

/-- A sample remote registry whose sync section is fully populated with
values different from the local ones, to exercise the merge policy. -/
def cfgRemote : Config :=
  { tools := [("docker",
      { name := "docker", description := none,
        install_commands := ["curl -fsSL https://get.docker.com | sh"],
        remove_commands := ["sudo apt-get remove -y docker"],
        update_commands := ["sudo apt-get upgrade -y docker"],
        run_commands := ["docker --version"], installed := true })],
    sync := { repo := some ("someone-else/other-repo"),
              token := some ("remote-token"), last_sync := some ("1999-01-01"),
              auto_sync := false } }

/-- C1: For every local registry with repo and credential configured and
every remote document that decodes to a registry, a successful Pull saves
a merged registry whose tool mapping equals the remote document's tool
mapping in full and whose SyncSettings equal the pre-pull local
SyncSettings in every field except `lastSync`, which is set to the
current time — regardless of the remote document's sync section. -/
theorem pull_merge_policy (config : Config) (env : PullEnv)
    (r k : String) (f : GHFile) (doc : Yaml) (rc : Config)
    (hrepo : config.sync.repo = some r) (htok : config.sync.token = some k)
    (hget : env.getResp = .ok f) (hcontent : f.content = some doc)
    (hdec : Config.fromYaml doc = some rc)
    (hbackup : env.localRead = none ∨ env.backupWriteOk = true)
    (hsave : env.saveOk = true) :
    (pull_config_from_github config env).result = .ok ()
    ∧ ∃ m, (pull_config_from_github config env).saved = some m
        ∧ m.tools = rc.tools
        ∧ m.sync.repo = config.sync.repo
        ∧ m.sync.token = config.sync.token
        ∧ m.sync.auto_sync = config.sync.auto_sync
        ∧ m.sync.last_sync = some env.now := by
  rcases hbackup with hb | hb <;>
  · cases hlr : env.localRead <;>
      simp_all [pull_config_from_github, mergeAfterPull]

/-- Witness for C1: the configured local registry pulls a remote document
holding one tool and foreign sync settings. -/
theorem pull_merge_policy_witness :
    (pull_config_from_github cfgConfigured
      { getResp := .ok { sha := "abc", content := some cfgRemote.toYaml },
        localRead := some cfgConfigured.toYaml, backupWriteOk := true,
        now := "2024-06-01T00:00:00Z", saveOk := true }).result = .ok ()
    ∧ ∃ m, (pull_config_from_github cfgConfigured
        { getResp := .ok { sha := "abc", content := some cfgRemote.toYaml },
          localRead := some cfgConfigured.toYaml, backupWriteOk := true,
          now := "2024-06-01T00:00:00Z", saveOk := true }).saved = some m
        ∧ m.tools = cfgRemote.tools
        ∧ m.sync.repo = cfgConfigured.sync.repo
        ∧ m.sync.token = cfgConfigured.sync.token
        ∧ m.sync.auto_sync = cfgConfigured.sync.auto_sync
        ∧ m.sync.last_sync = some ("2024-06-01T00:00:00Z") :=
  pull_merge_policy cfgConfigured
    { getResp := .ok { sha := "abc", content := some cfgRemote.toYaml },
      localRead := some cfgConfigured.toYaml, backupWriteOk := true,
      now := "2024-06-01T00:00:00Z", saveOk := true }
    ("me/tkit-config") ("tok")
    { sha := "abc", content := some cfgRemote.toYaml } cfgRemote.toYaml
    cfgRemote rfl rfl rfl rfl (config_roundtrip cfgRemote)
    (Or.inr rfl) rfl

/-- Counterexample to C5 as stated: with repo and token configured, a
readable local document and a remote that decodes fine, a failure of the
backup *write* makes the whole Pull fail (src/commands.rs line 528 uses
`?` on `fs::write`), so not every backup-step failure is swallowed. -/
theorem pull_backup_write_failure_cex :
    (pull_config_from_github cfgConfigured
      { getResp := .ok { sha := "abc", content := some cfgRemote.toYaml },
        localRead := some cfgConfigured.toYaml, backupWriteOk := false,
        now := "2024-06-01T00:00:00Z", saveOk := true }).result
      = .error .ioError := by
  rfl

/-- C5 (amended): a failure to *read* the pre-existing local document for
backup is silently skipped — the Pull succeeds without writing a backup —
but a failure to *write* the backup file propagates and fails the Pull. -/
theorem pull_backup_failure_policy (config : Config) (env₁ env₂ : PullEnv)
    (r k : String) (f₁ : GHFile) (doc₁ : Yaml) (rc₁ : Config)
    (f₂ : GHFile) (doc₂ : Yaml) (rc₂ : Config) (cur : Yaml)
    (hrepo : config.sync.repo = some r) (htok : config.sync.token = some k)
    (hget₁ : env₁.getResp = .ok f₁) (hc₁ : f₁.content = some doc₁)
    (hd₁ : Config.fromYaml doc₁ = some rc₁)
    (hread₁ : env₁.localRead = none) (hsave₁ : env₁.saveOk = true)
    (hget₂ : env₂.getResp = .ok f₂) (hc₂ : f₂.content = some doc₂)
    (hd₂ : Config.fromYaml doc₂ = some rc₂)
    (hread₂ : env₂.localRead = some cur)
    (hw₂ : env₂.backupWriteOk = false) :
    ((pull_config_from_github config env₁).result = .ok ()
      ∧ (pull_config_from_github config env₁).backupWritten = none)
    ∧ (pull_config_from_github config env₂).result = .error .ioError := by
  refine ⟨?_, ?_⟩
  · simp [pull_config_from_github, hrepo, htok, hget₁, hc₁, hd₁, hread₁,
          hsave₁]
  · simp [pull_config_from_github, hrepo, htok, hget₂, hc₂, hd₂, hread₂,
          hw₂]

/-- Witness for the amended C5: a pull whose backup read fails succeeds;
the same pull with a readable document but a failing backup write errors. -/
theorem pull_backup_failure_policy_witness :
    ((pull_config_from_github cfgConfigured
        { getResp := .ok { sha := "abc", content := some cfgRemote.toYaml },
          localRead := none, backupWriteOk := true,
          now := "2024-06-01T00:00:00Z", saveOk := true }).result = .ok ()
      ∧ (pull_config_from_github cfgConfigured
          { getResp := .ok { sha := "abc", content := some cfgRemote.toYaml },
            localRead := none, backupWriteOk := true,
            now := "2024-06-01T00:00:00Z", saveOk := true }).backupWritten
          = none)
    ∧ (pull_config_from_github cfgConfigured
        { getResp := .ok { sha := "abc", content := some cfgRemote.toYaml },
          localRead := some cfgConfigured.toYaml, backupWriteOk := false,
          now := "2024-06-01T00:00:00Z", saveOk := true }).result
        = .error .ioError :=
  pull_backup_failure_policy cfgConfigured
    { getResp := .ok { sha := "abc", content := some cfgRemote.toYaml },
      localRead := none, backupWriteOk := true,
      now := "2024-06-01T00:00:00Z", saveOk := true }
    { getResp := .ok { sha := "abc", content := some cfgRemote.toYaml },
      localRead := some cfgConfigured.toYaml, backupWriteOk := false,
      now := "2024-06-01T00:00:00Z", saveOk := true }
    ("me/tkit-config") ("tok")
    { sha := "abc", content := some cfgRemote.toYaml } cfgRemote.toYaml
    cfgRemote
    { sha := "abc", content := some cfgRemote.toYaml } cfgRemote.toYaml
    cfgRemote cfgConfigured.toYaml
    rfl rfl rfl rfl (config_roundtrip cfgRemote) rfl rfl
    rfl rfl (config_roundtrip cfgRemote) rfl rfl

/-- Counterexample to C6 as stated: a transport failure on the metadata
fetch during Push does not abort the push — the `if let Ok(...)` of
src/commands.rs line 398 turns it into "no sha", and the push proceeds
and succeeds against a responsive PUT endpoint. -/
theorem push_meta_transport_swallowed_cex :
    (push_config_to_github cfgConfigured
      { metaResp := .sendErr, putResp := fun _ _ => .res true (""),
        now := "2024-01-01T00:00:00Z", saveOk := true }).result = .ok ()
    ∧ (push_config_to_github cfgConfigured
        { metaResp := .sendErr, putResp := fun _ _ => .res true (""),
          now := "2024-01-01T00:00:00Z", saveOk := true }).sentPut
      = some (pushedDocument cfgConfigured, none) :=
  ⟨rfl, rfl⟩

/-- C6 (amended): a transport failure on the pull's content fetch or on
the push's conditional write surfaces as an error and aborts the sync
operation; but a transport failure on the push's metadata fetch is
swallowed and treated like file absence — the push proceeds with no
expected version. -/
theorem transport_failure_policy :
    (∀ (config : Config) (env : PullEnv) (r k : String),
        config.sync.repo = some r → config.sync.token = some k →
        env.getResp = .sendErr →
        (pull_config_from_github config env).result = .error .transportError)
    ∧ (∀ (config : Config) (env : PushEnv) (r k : String),
        config.sync.repo = some r → config.sync.token = some k →
        env.metaResp ≠ .jsonErr →
        env.putResp (pushedDocument config) (metaSha env.metaResp)
          = .sendErr →
        (push_config_to_github config env).result = .error .transportError)
    ∧ (∀ (config : Config) (env : PushEnv) (r k body : String),
        config.sync.repo = some r → config.sync.token = some k →
        env.metaResp = .sendErr →
        env.putResp (pushedDocument config) none = .res true body →
        env.saveOk = true →
        (push_config_to_github config env).result = .ok ()
        ∧ (push_config_to_github config env).sentPut
            = some (pushedDocument config, none)) := by
  refine ⟨?_, ?_, ?_⟩
  · intro config env r k hrepo htok hget
    simp [pull_config_from_github, hrepo, htok, hget]
  · intro config env r k hrepo htok hmeta hput
    cases hm : env.metaResp with
    | jsonErr => exact absurd hm hmeta
    | sendErr =>
      rw [hm] at hput
      simp [push_config_to_github, hrepo, htok, hm, hput]
    | notSuccess =>
      rw [hm] at hput
      simp [push_config_to_github, hrepo, htok, hm, hput]
    | ok f =>
      rw [hm] at hput
      simp [push_config_to_github, hrepo, htok, hm, hput]
  · intro config env r k body hrepo htok hmeta hput hsave
    constructor <;>
      simp [push_config_to_github, hrepo, htok, hmeta, metaSha, hput, hsave]

/-- Witness for the amended C6 at concrete configurations and
environments. -/
theorem transport_failure_policy_witness :
    (pull_config_from_github cfgConfigured
      { getResp := .sendErr, localRead := none, backupWriteOk := true,
        now := "t", saveOk := true }).result = .error .transportError
    ∧ (push_config_to_github cfgConfigured
        { metaResp := .notSuccess, putResp := fun _ _ => .sendErr,
          now := "t", saveOk := true }).result = .error .transportError
    ∧ (push_config_to_github cfgConfigured
        { metaResp := .sendErr, putResp := fun _ _ => .res true (""),
          now := "t", saveOk := true }).result = .ok () :=
  ⟨transport_failure_policy.1 cfgConfigured
    { getResp := .sendErr, localRead := none, backupWriteOk := true,
      now := "t", saveOk := true } ("me/tkit-config") ("tok") rfl rfl rfl,
   transport_failure_policy.2.1 cfgConfigured
    { metaResp := .notSuccess, putResp := fun _ _ => .sendErr,
      now := "t", saveOk := true } ("me/tkit-config") ("tok") rfl rfl
    (by intro h; cases h) rfl,
   (transport_failure_policy.2.2 cfgConfigured
    { metaResp := .sendErr, putResp := fun _ _ => .res true (""),
      now := "t", saveOk := true } ("me/tkit-config") ("tok") ("")
    rfl rfl rfl rfl rfl).1⟩

/-! Section: remote blob-store model for sequential-push scenarios -/

/-- Modelled from the spec: the remote blob store of §3/§4.3 — an
external collaborator, not code under src/.  It holds at most one file
(content plus an opaque content-version tag assigned on every write);
the counter generates fresh version tags. -/
structure RemoteState where
  file : Option (Yaml × String)
  counter : Nat

/-- Modelled from the spec: a fresh content-version tag per write. -/
def freshSha (n : Nat) : String := "sha-" ++ toString n

/-- Modelled from the spec: `fetchMeta` (§4.3) — returns the current
content and version tag, or `NotFound` (a non-success status) when the
file is absent. -/
def fetchMeta (s : RemoteState) : GetResult :=
  match s.file with
  | some (c, v) => .ok { sha := v, content := some c }
  | none => .notSuccess

/-- Modelled from the spec: `putContent` (§4.3) — when an expected
version is supplied it must match the remote's current version or the
write is rejected with `Conflict`; when omitted, the provider creates the
file if absent or overwrites unconditionally.  Every accepted write
stores the content under a fresh version tag. -/
def putContent (s : RemoteState) (content : Yaml) (expected : Option String) :
    PutResult × RemoteState :=
  let accept : PutResult × RemoteState :=
    (.res true (""),
     { file := some (content, freshSha s.counter), counter := s.counter + 1 })
  match s.file, expected with
  | none, none => accept
  | none, some _ => (.res false ("conflict"), s)
  | some _, none => accept
  | some (_, cur), some e =>
    if e = cur then accept else (.res false ("conflict"), s)

/-- A push run against a concrete remote store state: the environment's
responses are exactly what the store answers, and the store is updated by
the PUT the push sent, if any. -/
def runPushState (config : Config) (s : RemoteState) (now : String)
    (saveOk : Bool) : PushResult × RemoteState :=
  let env : PushEnv :=
    { metaResp := fetchMeta s, putResp := fun c e => (putContent s c e).1,
      now := now, saveOk := saveOk }
  let r := push_config_to_github config env
  match r.sentPut with
  | some (c, e) => (r, (putContent s c e).2)
  | none => (r, s)

/-- C7: a push supplies the version returned by the metadata fetch as the
expected version when the remote file exists, and no version constraint
when it is absent; consequently two pushes in sequence with no concurrent
writer both succeed, and the second push's expected version equals the
version produced by the first push. -/
theorem push_sequential_no_conflict (cfg₁ cfg₂ : Config) (s₀ : RemoteState)
    (n₁ n₂ r₁ k₁ r₂ k₂ : String)
    (h₁r : cfg₁.sync.repo = some r₁) (h₁k : cfg₁.sync.token = some k₁)
    (h₂r : cfg₂.sync.repo = some r₂) (h₂k : cfg₂.sync.token = some k₂) :
    (runPushState cfg₁ s₀ n₁ true).1.sentPut
      = some (pushedDocument cfg₁, s₀.file.map (fun p => p.2))
    ∧ (runPushState cfg₁ s₀ n₁ true).1.result = .ok ()
    ∧ ∃ v, (runPushState cfg₁ s₀ n₁ true).2.file
          = some (pushedDocument cfg₁, v)
        ∧ (runPushState cfg₂ (runPushState cfg₁ s₀ n₁ true).2 n₂ true).1.sentPut
            = some (pushedDocument cfg₂, some v)
        ∧ (runPushState cfg₂ (runPushState cfg₁ s₀ n₁ true).2 n₂ true).1.result
            = .ok () := by
  obtain ⟨file₀, c₀⟩ := s₀
  cases file₀ with
  | none =>
    refine ⟨?_, ?_, freshSha c₀, ?_, ?_, ?_⟩ <;>
      simp [runPushState, push_config_to_github, fetchMeta, putContent,
            metaSha, h₁r, h₁k, h₂r, h₂k]
  | some p =>
    obtain ⟨c, v⟩ := p
    refine ⟨?_, ?_, freshSha c₀, ?_, ?_, ?_⟩ <;>
      simp [runPushState, push_config_to_github, fetchMeta, putContent,
            metaSha, h₁r, h₁k, h₂r, h₂k]

/-- Witness for C7: two sequential pushes from the configured registry
against an initially empty remote store. -/
theorem push_sequential_no_conflict_witness :
    (runPushState cfgConfigured { file := none, counter := 0 } ("t1")
      true).1.sentPut = some (pushedDocument cfgConfigured, none)
    ∧ (runPushState cfgConfigured { file := none, counter := 0 } ("t1")
        true).1.result = .ok ()
    ∧ ∃ v, (runPushState cfgConfigured { file := none, counter := 0 } ("t1")
          true).2.file = some (pushedDocument cfgConfigured, v)
        ∧ (runPushState cfgConfigured
            (runPushState cfgConfigured { file := none, counter := 0 } ("t1")
              true).2 ("t2") true).1.sentPut
            = some (pushedDocument cfgConfigured, some v)
        ∧ (runPushState cfgConfigured
            (runPushState cfgConfigured { file := none, counter := 0 } ("t1")
              true).2 ("t2") true).1.result = .ok () := by
  have h := push_sequential_no_conflict cfgConfigured cfgConfigured
    { file := none, counter := 0 } ("t1") ("t2")
    ("me/tkit-config") ("tok") ("me/tkit-config") ("tok") rfl rfl rfl rfl
  simpa using h

/-! Section: setup, auto-sync hook and the CLI add command -/

/-- Effects environment of `setup_github_sync`: the token read from the
prompt when the argument is absent, the outcome of
`validate_github_access` and whether the final save succeeds. -/
structure SetupEnv where
  promptResp : String
  validateResp : Except SyncErr Unit
  saveOk : Bool

/-- Result record of a setup run: the propagated result and the config
saved to disk, if any. -/
structure SetupResult where
  result : Except SyncErr Unit
  saved : Option Config

/-- Function `setup_github_sync` from src/commands.rs: resolve the token (prompt
when omitted), validate access (`?` propagates its failure), and only
then store repo and token and save. -/
def setup_github_sync (config : Config) (repo : String)
    (token : Option String) (env : SetupEnv) : SetupResult :=
  let tok := match token with | some t => t | none => env.promptResp
  match env.validateResp with
  | .error e => ⟨.error e, none⟩
  | .ok _ =>
    let newSync : SyncConfig :=
      { config.sync with repo := some repo, token := some tok }
    let c' : Config := { config with sync := newSync }
    if env.saveOk then ⟨.ok (), some c'⟩ else ⟨.error .ioError, none⟩

/-- C8: For every Setup invocation, access validation happens before
anything is persisted: if validation fails, nothing is saved and the
on-disk document — hence the stored repo and credential — is exactly what
it was before the invocation. -/
theorem setup_validation_before_persist (config : Config) (repo : String)
    (token : Option String) (env : SetupEnv) (e : SyncErr)
    (hval : env.validateResp = .error e) :
    (setup_github_sync config repo token env).result = .error e
    ∧ (setup_github_sync config repo token env).saved = none
    ∧ ∀ disk : Option Yaml,
        applySave (setup_github_sync config repo token env).saved disk
          = disk := by
  refine ⟨?_, ?_, ?_⟩ <;> simp [setup_github_sync, hval, applySave]

/-- Witness for C8: a setup whose access validation is rejected saves
nothing. -/
theorem setup_validation_before_persist_witness :
    (setup_github_sync Config.new ("me/tkit-config") (some ("tok"))
      { promptResp := "", validateResp := .error (.httpError ("403")),
        saveOk := true }).result = .error (.httpError ("403"))
    ∧ (setup_github_sync Config.new ("me/tkit-config") (some ("tok"))
        { promptResp := "", validateResp := .error (.httpError ("403")),
          saveOk := true }).saved = none
    ∧ ∀ disk : Option Yaml,
        applySave (setup_github_sync Config.new ("me/tkit-config")
          (some ("tok"))
          { promptResp := "", validateResp := .error (.httpError ("403")),
            saveOk := true }).saved disk = disk :=
  setup_validation_before_persist Config.new ("me/tkit-config") (some ("tok"))
    { promptResp := "", validateResp := .error (.httpError ("403")),
      saveOk := true } (.httpError ("403")) rfl

/-- Function `auto_sync_if_enabled` from src/commands.rs: when
`should_auto_sync()` holds it runs the silent push and swallows any error
(printing a warning); otherwise it does nothing.  The boolean records
whether a push was attempted; the function's own result is its returned
`Result`. -/
def auto_sync_if_enabled (config : Config)
    (pushOutcome : Except SyncErr Unit) : Except SyncErr Unit × Bool :=
  if config.should_auto_sync then
    match pushOutcome with
    | .error _ => (.ok (), true)
    | .ok _ => (.ok (), true)
  else (.ok (), false)

/-- C9: For every registry state and every outcome of the underlying
push, the auto-sync hook returns success; it attempts a push exactly when
`should_auto_sync()` holds, and any push error is swallowed rather than
propagated. -/
theorem auto_sync_never_fails (config : Config)
    (pushOutcome : Except SyncErr Unit) :
    (auto_sync_if_enabled config pushOutcome).1 = .ok ()
    ∧ ((auto_sync_if_enabled config pushOutcome).2 = true
        ↔ config.should_auto_sync = true) := by
  cases h : config.should_auto_sync <;> cases pushOutcome <;>
    simp [auto_sync_if_enabled, h]

/-- Effects environment of the CLI `add_tool`: the trimmed description
read from the prompt, the four command lists read line by line, and
whether the save succeeds. -/
structure AddEnv where
  description : String
  installCmds : List String
  removeCmds : List String
  updateCmds : List String
  runCmds : List String
  saveOk : Bool

/-- Result record of a CLI add run: the propagated result, whether any
interactive prompting happened, the config saved to disk, if any, and
whether the auto-sync hook attempted a push. -/
structure AddResult where
  result : Except SyncErr Unit
  prompted : Bool
  saved : Option Config
  autoSyncAttempted : Bool

/-- CLI `add_tool` from src/commands.rs: if the name is already present
it prints a notice and returns `Ok(())` immediately — before any
prompting, mutation, save or auto-sync. Otherwise it prompts for a
required description and the command lists, inserts the tool, saves, and
invokes the auto-sync hook. -/
def add_tool_cli (config : Config) (toolName : String) (env : AddEnv) :
    AddResult :=
  if (alookup config.tools toolName).isSome then
    ⟨.ok (), false, none, false⟩
  else if env.description = "" then
    ⟨.error .descriptionRequired, true, none, false⟩
  else
    let tool : ToolConfig :=
      { name := toolName, description := some env.description,
        install_commands := env.installCmds,
        remove_commands := env.removeCmds,
        update_commands := env.updateCmds,
        run_commands := env.runCmds, installed := false }
    let c' := { config with tools := config.tools ++ [(toolName, tool)] }
    if env.saveOk then ⟨.ok (), true, some c', c'.should_auto_sync⟩
    else ⟨.error .ioError, true, none, false⟩

/-- C10: For every tool name already present in the loaded registry, the
CLI-level add returns success without prompting, without saving (so the
on-disk registry is unmodified) and without auto-syncing — even though
the Registry Model's own `add_tool` rejects the duplicate name. -/
theorem add_existing_tool_is_noop (config : Config) (toolName : String)
    (t : ToolConfig) (env : AddEnv)
    (h : alookup config.tools toolName = some t) :
    (add_tool_cli config toolName env).result = .ok ()
    ∧ (add_tool_cli config toolName env).prompted = false
    ∧ (add_tool_cli config toolName env).saved = none
    ∧ (add_tool_cli config toolName env).autoSyncAttempted = false
    ∧ (∀ disk : Option Yaml,
        applySave (add_tool_cli config toolName env).saved disk = disk)
    ∧ ∃ msg, config.add_tool toolName t = .error msg := by
  refine ⟨?_, ?_, ?_, ?_, ?_, ?_⟩ <;>
    simp [add_tool_cli, Config.add_tool, h, applySave]

/-- Witness for C10: adding the already-present tool "git". -/
theorem add_existing_tool_is_noop_witness :
    (add_tool_cli cfgConfigured ("git")
      { description := "d", installCmds := [], removeCmds := [],
        updateCmds := [], runCmds := [], saveOk := true }).result = .ok ()
    ∧ (add_tool_cli cfgConfigured ("git")
        { description := "d", installCmds := [], removeCmds := [],
          updateCmds := [], runCmds := [], saveOk := true }).prompted
        = false
    ∧ (add_tool_cli cfgConfigured ("git")
        { description := "d", installCmds := [], removeCmds := [],
          updateCmds := [], runCmds := [], saveOk := true }).saved = none
    ∧ (add_tool_cli cfgConfigured ("git")
        { description := "d", installCmds := [], removeCmds := [],
          updateCmds := [], runCmds := [], saveOk := true
        }).autoSyncAttempted = false
    ∧ (∀ disk : Option Yaml,
        applySave (add_tool_cli cfgConfigured ("git")
          { description := "d", installCmds := [], removeCmds := [],
            updateCmds := [], runCmds := [], saveOk := true }).saved disk
          = disk)
    ∧ ∃ msg, cfgConfigured.add_tool ("git") sampleTool = .error msg :=
  add_existing_tool_is_noop cfgConfigured ("git") sampleTool
    { description := "d", installCmds := [], removeCmds := [],
      updateCmds := [], runCmds := [], saveOk := true } rfl

end Tkit
